import Mathlib

/-!
Verification of the Navigation Agent V2 execution core
(`backend/app/agent/navigation_agent_v2.py`, `backend/app/agent/hitl_config.py`,
budget handling in `backend/app/api/chat.py`).

The Python code is shallowly embedded: Python values become `PyVal`, Python
dicts become insertion-ordered association lists, the LangGraph nodes become
pure functions over an explicit `AgentState`, and the `interrupt()` suspension
points become oracle arguments carrying the resume value the caller would
supply.  Tool execution (`tool.ainvoke`) is an environment-supplied function
returning `Except` (a raised exception becomes `Except.error`), and
`json.loads` is an environment-supplied partial parser.
-/

namespace NavV2

/-- Model of a dynamically typed Python value (the subset flowing through the
agent: `None`, booleans, ints, strings, lists and string-keyed dicts). -/
inductive PyVal : Type where
  | none : PyVal
  | bool (b : Bool) : PyVal
  | int (n : Int) : PyVal
  | str (s : String) : PyVal
  | list (xs : List PyVal) : PyVal
  | dict (kvs : List (String × PyVal)) : PyVal

/-- A Python dict with string keys, as an insertion-ordered association list. -/
abbrev PyDict := List (String × PyVal)

/-- Generic lookup in an insertion-ordered table (`d.get(k)`): first match wins. -/
def tableGet {α : Type} : List (String × α) → String → Option α
  | [], _ => Option.none
  | kv :: rest, k => if kv.1 = k then some kv.2 else tableGet rest k

/-- `d[k] = v` for one key of a Python dict: replace in place if the key is
present (keeping its position), otherwise append at the end. -/
def dictSet (d : PyDict) (k : String) (v : PyVal) : PyDict :=
  if d.any (fun kv => kv.1 = k) then
    d.map (fun kv => if kv.1 = k then (k, v) else kv)
  else d ++ [(k, v)]

/-- Python's `d.update(p)`: every key of `p` overwrites or extends `d`,
in `p`'s order. -/
def dictUpdate (d : PyDict) (p : PyDict) : PyDict :=
  p.foldl (fun acc kv => dictSet acc kv.1 kv.2) d

/-- Python `str(x)` for the values the tools return; strings are returned
as-is, other values use a repr-style rendering. -/
def pyStr : PyVal → String
  | .none => "None"
  | .bool b => if b then "True" else "False"
  | .int n => toString n
  | .str s => s
  | .list xs => "[" ++ String.intercalate ", " (pyStrList xs) ++ "]"
  | .dict kvs => "\x7b" ++ String.intercalate ", " (pyStrKvs kvs) ++ "\x7d"
where
  pyStrList : List PyVal → List String
    | [] => []
    | x :: xs => pyStr x :: pyStrList xs
  pyStrKvs : List (String × PyVal) → List String
    | [] => []
    | kv :: kvs => (kv.1 ++ ": " ++ pyStr kv.2) :: pyStrKvs kvs

/-- Rendering used for `json.dumps(selected_item)` in the (dead, see
`need_selection_always_false`) selection branch. -/
def jsonDumps : PyVal → String
  | .none => "null"
  | .bool b => if b then "true" else "false"
  | .int n => toString n
  | .str s => "\"" ++ s ++ "\""
  | .list xs => "[" ++ String.intercalate ", " (dumpList xs) ++ "]"
  | .dict kvs => "\x7b" ++ String.intercalate ", " (dumpKvs kvs) ++ "\x7d"
where
  dumpList : List PyVal → List String
    | [] => []
    | x :: xs => jsonDumps x :: dumpList xs
  dumpKvs : List (String × PyVal) → List String
    | [] => []
    | kv :: kvs => ("\"" ++ kv.1 ++ "\": " ++ jsonDumps kv.2) :: dumpKvs kvs

/-! ## HITL configuration (`backend/app/agent/hitl_config.py`) -/

/-- `HITLConfig.require_confirmation`: tools that need a confirmation gate. -/
def require_confirmation : List String :=
  [ "sgm-navigation_com_sgm_navi_hmi_set_destination",
    "sgm-navigation_com_sgm_navi_hmi_add_via_poi",
    "com_sgm_navi_hmi_set_destination",
    "com_sgm_navi_hmi_add_via_poi",
    "start_navigation",
    "stop_navigation",
    "book_ticket",
    "cancel_ticket",
    "pay_order",
    "memory_save_user_profile",
    "memory_save_relationship" ]

/-- `HITLConfig.require_selection`: tools whose list results need a user
selection.  The source list is empty. -/
def require_selection : List String := []

/-- `HITLConfig.param_prompts`: per-tool prompts for missing parameters. -/
def param_prompts : List (String × List (String × String)) :=
  [ ("get_weather", [("city", "请问您想查询哪个城市的天气？")]),
    ("sgm-navigation_com_sgm_navi_hmi_request_poi_search",
      [("keyword", "请问您想搜索什么地点？")]),
    ("com_sgm_navi_hmi_request_poi_search",
      [("keyword", "请问您想搜索什么地点？")]),
    ("search_poi", [("keyword", "请问您想搜索什么地点？")]),
    ("search_nearby_poi", [("keyword", "请问您想找附近的什么？")]),
    ("sgm-navigation_com_sgm_navi_hmi_set_destination",
      [("poi_name", "请问您想导航去哪里？")]),
    ("com_sgm_navi_hmi_set_destination",
      [("poi_name", "请问您想导航去哪里？")]),
    ("start_navigation", [("destination", "请问您想导航去哪里？")]),
    ("query_tickets",
      [("from_station", "请问您从哪里出发？"),
       ("to_station", "请问您要去哪里？"),
       ("date", "请问您要查询哪天的票？")]) ]

/-- `need_confirmation(tool_name)`: membership in the confirmation list. -/
def need_confirmation (tool_name : String) : Bool :=
  require_confirmation.contains tool_name

/-- `need_selection(tool_name)`: membership in the (empty) selection list. -/
def need_selection (tool_name : String) : Bool :=
  require_selection.contains tool_name

/-- `get_missing_param_prompt(tool_name, param_name)`:
`param_prompts.get(tool_name, {}).get(param_name)`. -/
def get_missing_param_prompt (tool_name param_name : String) : Option String :=
  match tableGet param_prompts tool_name with
  | some tool_prompts => tableGet tool_prompts param_name
  | Option.none => Option.none

/-- `is_candidate_list(result, min_count)`: detect a list-shaped tool result.
`jp` models `json.loads` (`Option.none` = parse failure); `fuel` bounds the
recursion through the MCP `content[0].text` unwrap, which in Python recurses
through freshly parsed strings. -/
def is_candidate_list (jp : String → Option PyVal) :
    Nat → PyVal → Nat → Bool × List PyVal
  | 0, _, _ => (false, [])
  | _ + 1, .str s, mc =>
    match jp s with
    | Option.none => (false, [])
    | some parsed => candidate_core jp mc parsed
  | fuel + 1, v, mc =>
    match v with
    | .dict kvs =>
      match candidate_core jp mc (.dict kvs) with
      | (true, xs) => (true, xs)
      | (false, _) =>
        -- the `content[0].text` MCP unwrap, recursing on the parsed text
        match tableGet kvs "content" with
        | some (.list (c0 :: _)) =>
          match c0 with
          | .dict cd =>
            match tableGet cd "text" with
            | some (.str t) =>
              match jp t with
              | some tparsed => is_candidate_list jp fuel tparsed mc
              | Option.none => (false, [])
            | _ => (false, [])
          | _ => (false, [])
        | _ => (false, [])
    | _ => candidate_core jp mc v
where
  /-- The non-recursive checks: a bare list, a well-known one-level key, or a
  well-known key nested under `value`. -/
  candidate_core (_jp : String → Option PyVal) (mc : Nat) : PyVal → Bool × List PyVal
  | .list xs => if mc ≤ xs.length then (true, xs) else (false, [])
  | .dict kvs =>
    let list_keys := ["results", "items", "data", "list", "candidates", "pois",
                      "trains", "mPoiInfoList"]
    let direct := list_keys.findSome? (fun k =>
      match tableGet kvs k with
      | some (.list xs) => if mc ≤ xs.length then some xs else Option.none
      | _ => Option.none)
    match direct with
    | some xs => (true, xs)
    | Option.none =>
      match tableGet kvs "value" with
      | some (.dict vkvs) =>
        match list_keys.findSome? (fun k =>
          match tableGet vkvs k with
          | some (.list xs) => if mc ≤ xs.length then some xs else Option.none
          | _ => Option.none) with
        | some xs => (true, xs)
        | Option.none => (false, [])
      | _ => (false, [])
  | _ => (false, [])

/-! ## HITL gates (`NavigationAgentV2._check_hitl_requirements`) -/

/-- Truthiness of an optional prompt string (Python
`if ... and get_missing_param_prompt(...)`): present and non-empty. -/
def optStrTruthy : Option String → Bool
  | some s => ¬ (s = "")
  | Option.none => false

/-- A parameter value counts as empty when it is `None` or a string that
strips to nothing (`not param_value.strip()`: empty or whitespace-only). -/
def isEmptyParam : PyVal → Bool
  | .none => true
  | .str s => s.data.all Char.isWhitespace
  | _ => false

/-- The missing-parameter scan of HITL gate 1: keys of `tool_args` whose value
is empty and which have a (truthy) registered prompt, in insertion order. -/
def missingParams (tool_name : String) (tool_args : PyDict) : List String :=
  (tool_args.filter (fun kv =>
    isEmptyParam kv.2 && optStrTruthy (get_missing_param_prompt tool_name kv.1))).map
    (fun kv => kv.1)

/-- The branch taken on the `ask_params` resume value:
`patch` for a dict carrying a `params` dict, `badPatch` for a dict whose
`params` is not a mapping (Python's `dict.update` would raise there),
`cancel` for the string `"cancel"`, `other` for everything else
(which silently proceeds with unchanged args). -/
inductive AskBranch : Type where
  | patch (p : PyDict) : AskBranch
  | badPatch : AskBranch
  | cancel : AskBranch
  | other : AskBranch

/-- Classify an `ask_params` resume value into its code branch. -/
def askBranch : PyVal → AskBranch
  | .dict d =>
    match tableGet d "params" with
    | some (.dict p) => .patch p
    | some _ => .badPatch
    | Option.none => .other
  | .str s => if s = "cancel" then .cancel else .other
  | _ => .other

/-- Whether an `AskBranch` is the ill-typed `params` case. -/
def isBadPatch : AskBranch → Bool
  | .badPatch => true
  | _ => false

/-- A confirmation resume value counts as cancelling when it is the string
`"cancel"` or `"取消"`. -/
def isCancelToken : PyVal → Bool
  | .str s => s = "cancel" || s = "取消"
  | _ => false

/-- Outcome of `_check_hitl_requirements`: the action is cancelled, proceeds
with (possibly patched) args, or the check itself raises (un-caught
`TypeError` from `dict.update` on a non-mapping `params`). -/
inductive HitlOutcome : Type where
  | cancelled : HitlOutcome
  | proceed (args : PyDict) : HitlOutcome
  | raised (err : String) : HitlOutcome

/-- Instrumentation recording which interrupts fired during the HITL check. -/
structure HitlTrace : Type where
  ask_raised : Bool
  missing_params : List String
  ask_message : String
  confirmation_raised : Bool

/-- The prompt text joined for the `ask_params` interrupt payload. -/
def askMessageOf (tool_name : String) (missing : List String) : String :=
  String.intercalate "\n" (missing.map (fun p =>
    (get_missing_param_prompt tool_name p).getD ("请提供 " ++ p)))

/-- HITL gate 2 of `_check_hitl_requirements` (high-risk confirmation):
suspends for tools on the confirmation list and cancels on a cancel token. -/
def confirmation_gate (tool_name : String) (confirmResume : PyVal)
    (missing : List String) (ask_message : String)
    (args : PyDict) (askRaised : Bool) : HitlOutcome × HitlTrace :=
  if need_confirmation tool_name then
    if isCancelToken confirmResume then
      (.cancelled, ⟨askRaised, missing, ask_message, true⟩)
    else
      (.proceed args, ⟨askRaised, missing, ask_message, true⟩)
  else
    (.proceed args, ⟨askRaised, missing, ask_message, false⟩)

/-- `NavigationAgentV2._check_hitl_requirements(tool_name, tool_args, ...)`:
gate 1 (missing-parameter follow-up, suspending on `interrupt`, whose resume
value is the oracle `askResume`), then gate 2 (high-risk confirmation, resume
oracle `confirmResume`).  Returns the outcome together with a trace of which
interrupts were raised. -/
def check_hitl_requirements (tool_name : String) (tool_args : PyDict)
    (askResume confirmResume : PyVal) : HitlOutcome × HitlTrace :=
  if (missingParams tool_name tool_args).isEmpty then
    confirmation_gate tool_name confirmResume (missingParams tool_name tool_args)
      (askMessageOf tool_name (missingParams tool_name tool_args)) tool_args false
  else
    match askBranch askResume with
    | .patch p =>
      confirmation_gate tool_name confirmResume (missingParams tool_name tool_args)
        (askMessageOf tool_name (missingParams tool_name tool_args))
        (dictUpdate tool_args p) true
    | .badPatch =>
      (.raised "TypeError: update sequence element is not a mapping",
       ⟨true, missingParams tool_name tool_args,
        askMessageOf tool_name (missingParams tool_name tool_args), false⟩)
    | .cancel =>
      (.cancelled,
       ⟨true, missingParams tool_name tool_args,
        askMessageOf tool_name (missingParams tool_name tool_args), false⟩)
    | .other =>
      confirmation_gate tool_name confirmResume (missingParams tool_name tool_args)
        (askMessageOf tool_name (missingParams tool_name tool_args)) tool_args true

/-! ## Messages, decisions, observations, state
(`backend/app/state/agent_state.py` and the decision dicts of
`navigation_agent_v2.py`) -/

/-- One entry of an `AIMessage.tool_calls` list: `call.get("id")` may be
absent (`Option.none` models Python `None`). -/
structure ToolCall : Type where
  id : Option String
  name : String
  args : PyDict

/-- A LangChain message, restricted to the fields the agent reads. -/
inductive Msg : Type where
  | human (content : String) : Msg
  | system (content : String) : Msg
  | ai (content : String) (tool_calls : List ToolCall) : Msg
  | tool (content : String) (tool_call_id : Option String) : Msg

/-- One entry of `decision["actions"]`: `{"name": ..., "args": ...}`. -/
structure Action : Type where
  name : String
  args : PyDict

/-- The standardized decision dict built by the agent node. -/
structure Decision : Type where
  think : String
  actions : List Action
  response : String
  is_complete : Bool

/-- One entry of `action_results` (an Observation):
`{"tool", "status", "result"?/"error"?}`. -/
structure Obs : Type where
  tool : String
  status : String
  result : Option String
  error : Option String

/-- The `AgentState` TypedDict, restricted to the fields the three nodes and
the two conditional edges read or write.  Keys read through
`state.get(k, default)` are modelled with their defaults (`decision` as an
`Option`, `action_results` defaulting to `[]`).  The HITL bookkeeping fields
(`pending_action`, `candidates`, `interrupt_type`, `interrupt_message`,
`detected_memories`) are never touched by these nodes and are omitted. -/
structure AgentState : Type where
  messages : List Msg
  iteration_count : Nat
  total_tool_calls : Nat
  force_terminate : Bool
  decision : Option Decision
  action_results : List Obs

/-- `AgentConfig.MAX_ITERATIONS` (`navigation_agent_v2.py`). -/
def AgentConfig.MAX_ITERATIONS : Nat := 10

/-- `AgentConfig.MAX_TOTAL_TOOL_CALLS` (`navigation_agent_v2.py`). -/
def AgentConfig.MAX_TOTAL_TOOL_CALLS : Nat := 50

/-- `state.get("decision", {})` followed by `.get(...)` accesses: a missing
decision behaves as one with no actions, empty texts and `is_complete=False`. -/
def decisionOf (st : AgentState) : Decision :=
  st.decision.getD ⟨"", [], "", false⟩

/-! ## Node 1: `NavigationAgentV2.agent_node` -/

/-- The parsed LLM reply: `response.content or ""` and
`getattr(response, "tool_calls", [])`. -/
structure LLMResp : Type where
  content : String
  tool_calls : List ToolCall

/-- The dict returned by `agent_node` (all three keys always present). -/
structure AgentUpdate : Type where
  decision : Decision
  messages : List Msg
  iteration_count : Nat

/-- `NavigationAgentV2._build_decision(content, tool_calls, iteration,
action_results)`. -/
def build_decision (content : String) (tool_calls : List ToolCall)
    (iteration : Nat) (action_results : List Obs) : Decision :=
  let actions : List Action := tool_calls.map (fun call => ⟨call.name, call.args⟩)
  let is_complete : Bool :=
    if actions.isEmpty then true
    else decide (AgentConfig.MAX_ITERATIONS ≤ iteration)
  let think0 := "第" ++ toString iteration ++ "轮推理："
  let think1 := think0 ++
    (if actions.isEmpty then "直接回复用户"
     else "需要调用" ++ toString actions.length ++ "个工具")
  let think :=
    if action_results.isEmpty then think1
    else think1 ++ "，上轮执行了" ++ toString action_results.length ++ "个工具"
  ⟨think, actions, if content = "" then "处理中..." else content, is_complete⟩

/-- `NavigationAgentV2.agent_node`: the LLM invocation is passed in as an
`Except` (an exception raised by `ainvoke` becomes `Except.error`); on failure
the node returns the synthetic fallback decision instead of raising. -/
def agent_node (st : AgentState) (llm_result : Except String LLMResp) :
    AgentUpdate :=
  let iteration := st.iteration_count + 1
  match llm_result with
  | .error e =>
    { decision := ⟨"LLM调用失败: " ++ e, [], "抱歉，处理请求时出错了", true⟩,
      messages := [.ai "抱歉，处理请求时出错了" []],
      iteration_count := iteration }
  | .ok r =>
    { decision := build_decision r.content r.tool_calls iteration st.action_results,
      messages := [.ai r.content r.tool_calls],
      iteration_count := iteration }

/-! ## Node 2: `NavigationAgentV2.execution_node` -/

/-- The collaborators and resume oracles of one `execution_node` call:
the tool registry (`_find_tool` + `tool.ainvoke`, where `Except.error` models
a raised exception), `json.loads`, and the resume values the caller would
supply to the `ask_params` / `confirmation` / `selection` interrupts. -/
structure ExecEnv : Type where
  findTool : String → Option (PyDict → Except String PyVal)
  jsonParse : String → Option PyVal
  askResume : PyVal
  confirmResume : PyVal
  selResume : PyVal

/-- The dict returned by `execution_node`.  `total_tool_calls = Option.none`
models the key being absent from the returned dict (counter unchanged).
`invoked` is instrumentation: the `(tool_name, args)` of every actual
`tool.ainvoke` call made. -/
structure ExecEffects : Type where
  action_results : List Obs
  messages : List Msg
  total_tool_calls : Option Nat
  invoked : List (String × PyDict)

/-- The `tool_call_id`s of all `ToolMessage`s in the history
(`executed_tool_ids`). -/
def executedIds (messages : List Msg) : List (Option String) :=
  messages.filterMap (fun m =>
    match m with
    | .tool _ id => some id
    | _ => Option.none)

/-- The `tool_calls` of the last `AIMessage` in the history, `[]` if none. -/
def lastAiToolCalls (messages : List Msg) : List ToolCall :=
  go messages.reverse
where
  go : List Msg → List ToolCall
    | [] => []
    | .ai _ tcs :: _ => tcs
    | _ :: rest => go rest

/-- `tool_calls[i].get("id") if i < len(tool_calls) else f"call_{i}"`. -/
def callIdAt (tool_calls : List ToolCall) (i : Nat) : Option String :=
  match tool_calls[i]? with
  | some tc => tc.id
  | Option.none => some ("call_" ++ toString i)

/-- The fuel given to `is_candidate_list`'s MCP-text unwrap (the Python code
recurses through freshly parsed strings; the selection gate is dead anyway,
see `need_selection_always_false`). -/
def CANDIDATE_FUEL : Nat := 8

/-- The `selection` resume branch: a dict carrying a `"selected"` key. -/
def selectedOf : PyVal → Option PyVal
  | .dict d => tableGet d "selected"
  | _ => Option.none

/-- `NavigationAgentV2._execute_tool_directly(tool_name, tool_args,
tool_call_id)`: looks the tool up, invokes it, runs HITL gate 3 (selection),
and converts every failure into an `error` observation.  The third component
is the list of registry invocations actually performed (instrumentation). -/
def execute_tool_directly (env : ExecEnv) (tool_name : String)
    (tool_args : PyDict) (tool_call_id : Option String) :
    Obs × Msg × List (String × PyDict) :=
  match env.findTool tool_name with
  | Option.none =>
    let error_msg := "工具不存在: " ++ tool_name
    (⟨tool_name, "error", Option.none, some error_msg⟩,
     .tool error_msg tool_call_id, [])
  | some f =>
    match f tool_args with
    | .error e =>
      let error_msg := "执行失败: " ++ e
      (⟨tool_name, "error", Option.none, some e⟩,
       .tool error_msg tool_call_id, [(tool_name, tool_args)])
    | .ok result =>
      let result_str := pyStr result
      let cl := is_candidate_list env.jsonParse CANDIDATE_FUEL result 2
      let result_str :=
        if cl.1 && need_selection tool_name then
          match selectedOf env.selResume with
          | some selected_item => jsonDumps selected_item
          | Option.none => result_str
        else result_str
      (⟨tool_name, "success", some result_str, Option.none⟩,
       .tool result_str tool_call_id, [(tool_name, tool_args)])

/-- The per-action loop of `execution_node`: walk `decision["actions"]` with
their indices, skip every action whose `tool_call_id` already has a
`ToolMessage`, and process the first pending one (HITL gates then direct
execution), returning immediately. -/
def execLoop (env : ExecEnv) (tool_calls : List ToolCall)
    (executed : List (Option String)) (total_tool_calls : Nat) :
    List (Nat × Action) → Except String ExecEffects
  | [] => .ok ⟨[], [], Option.none, []⟩
  | (i, action) :: rest =>
    let tool_call_id := callIdAt tool_calls i
    if executed.contains tool_call_id then
      execLoop env tool_calls executed total_tool_calls rest
    else
      match check_hitl_requirements action.name action.args
          env.askResume env.confirmResume with
      | (.raised e, _) => .error e
      | (.cancelled, _) =>
        .ok ⟨[⟨action.name, "cancelled", Option.none, some "用户取消"⟩],
             [.tool "用户取消了操作" tool_call_id], Option.none, []⟩
      | (.proceed args2, _) =>
        let r := execute_tool_directly env action.name args2 tool_call_id
        let total2 :=
          if r.1.status = "success" || r.1.status = "error" then
            total_tool_calls + 1
          else total_tool_calls
        .ok ⟨[r.1], [r.2.1], some total2, r.2.2⟩

/-- `NavigationAgentV2.execution_node`: one action per call, driven by the
dedup-by-`tool_call_id` scan of the message history.  `Except.error` models an
exception escaping the node (only the ill-typed `params` resume can cause
one). -/
def execution_node (env : ExecEnv) (st : AgentState) :
    Except String ExecEffects :=
  if (decisionOf st).actions.isEmpty then .ok ⟨[], [], Option.none, []⟩
  else
    execLoop env (lastAiToolCalls st.messages) (executedIds st.messages)
      st.total_tool_calls (decisionOf st).actions.enum

/-! ## Node 3: `NavigationAgentV2.response_node` -/

/-- The `SILENT_TOOLS` set of `response_node`. -/
def SILENT_TOOLS : List String :=
  [ "memory_save_location", "memory_save_preference",
    "memory_save_user_profile", "memory_save_relationship" ]

/-- The fixed termination message for `terminate_reason == "max_iterations"`. -/
def max_iterations_message : String :=
  "抱歉，处理您的请求时遇到了复杂情况，已超过最大推理次数（" ++
    toString AgentConfig.MAX_ITERATIONS ++ "次）。请简化问题或重新提问。"

/-- The fixed termination message for `terminate_reason == "max_tool_calls"`. -/
def max_tool_calls_message : String :=
  "抱歉，本轮对话已达到工具调用次数上限（" ++
    toString AgentConfig.MAX_TOTAL_TOOL_CALLS ++ "次）。请开始新的对话。"

/-- The normal-completion branch of `response_node`: the decision's draft
response plus a per-observation summary, with silent tools filtered out. -/
def compose_response (decision : Decision) (action_results : List Obs) :
    String :=
  let base_response := decision.response
  if action_results.isEmpty then base_response
  else
    let visible := action_results.filter (fun r => ¬ SILENT_TOOLS.contains r.tool)
    if visible.isEmpty then base_response
    else
      base_response ++ "\n\n执行结果：\n" ++
        String.join (visible.map (fun r =>
          if r.status = "success" then "✓ " ++ r.tool ++ ": 成功\n"
          else "✗ " ++ r.tool ++ ": 失败 (" ++ r.error.getD "未知错误" ++ ")\n"))

/-- `NavigationAgentV2.response_node`: computes `terminate_reason` (iteration
cap first, then tool-call cap) and returns the content of the final
`AIMessage`. -/
def response_node (st : AgentState) : String :=
  if AgentConfig.MAX_ITERATIONS ≤ st.iteration_count then
    max_iterations_message
  else if AgentConfig.MAX_TOTAL_TOOL_CALLS ≤ st.total_tool_calls then
    max_tool_calls_message
  else
    compose_response (decisionOf st) st.action_results

/-! ## Conditional edges -/

/-- `NavigationAgentV2.should_continue`: tool-call cap, then `is_complete`,
then presence of actions. -/
def should_continue (st : AgentState) : String :=
  if AgentConfig.MAX_TOTAL_TOOL_CALLS ≤ st.total_tool_calls then "response"
  else if (decisionOf st).is_complete then "response"
  else if ¬ (decisionOf st).actions.isEmpty then "execution"
  else "response"

/-- The pending-tool count of `need_continue_after_execution`:
`len({tc.get("id") for tc in tool_calls if tc.get("id")} - executed_tool_ids)`
(falsy ids — `None` and `""` — are dropped before the set difference). -/
def pendingCount (st : AgentState) : Nat :=
  let executed := executedIds st.messages
  let total_ids := ((lastAiToolCalls st.messages).filterMap (fun tc =>
    match tc.id with
    | some s => if s = "" then Option.none else some s
    | Option.none => Option.none)).eraseDups
  (total_ids.filter (fun s => ¬ executed.contains (some s))).length

/-- `NavigationAgentV2.need_continue_after_execution`: iteration cap, then
pending tools of the current decision, else back to the agent. -/
def need_continue_after_execution (st : AgentState) : String :=
  if AgentConfig.MAX_ITERATIONS ≤ st.iteration_count then "response"
  else if (decisionOf st).actions.isEmpty then "agent"
  else if 0 < pendingCount st then "execution"
  else "agent"

/-! ## The compiled graph as a step function
(`create_graph` wiring: agent → {execution, response},
execution → {execution, agent, response}, response → END) -/

/-- The node about to run (END is `done`). -/
inductive Node : Type where
  | agent : Node
  | execution : Node
  | response : Node
  | done : Node
deriving DecidableEq

/-- A machine configuration: the pending node, the conversation state, and an
instrumentation counter of all registry invocations made so far. -/
structure Sys : Type where
  node : Node
  st : AgentState
  invocations : Nat

/-- The environment of a whole run: the LLM and the HITL resume values may
depend on the state they are consulted in (so every possible behaviour of the
external collaborators is covered). -/
structure SysEnv : Type where
  llm : AgentState → Except String LLMResp
  findTool : String → Option (PyDict → Except String PyVal)
  jsonParse : String → Option PyVal
  askResume : AgentState → PyVal
  confirmResume : AgentState → PyVal
  selResume : AgentState → PyVal

/-- The `ExecEnv` visible to one `execution_node` call. -/
def execEnvAt (env : SysEnv) (st : AgentState) : ExecEnv :=
  ⟨env.findTool, env.jsonParse, env.askResume st, env.confirmResume st,
   env.selResume st⟩

/-- Merge an `agent_node` return dict into the state (messages append by
`operator.add`; `decision` and `iteration_count` replace). -/
def applyAgentUpdate (st : AgentState) (u : AgentUpdate) : AgentState :=
  { st with
    messages := st.messages ++ u.messages,
    decision := some u.decision,
    iteration_count := u.iteration_count }

/-- Merge an `execution_node` return dict into the state (`total_tool_calls`
only when the key is present). -/
def applyExecEffects (st : AgentState) (eff : ExecEffects) : AgentState :=
  { st with
    messages := st.messages ++ eff.messages,
    action_results := eff.action_results,
    total_tool_calls := eff.total_tool_calls.getD st.total_tool_calls }

/-- One LangGraph super-step: run the pending node, merge its update, follow
the conditional edge.  An exception escaping a node aborts the run (`done`). -/
def sysStep (env : SysEnv) (s : Sys) : Sys :=
  match s.node with
  | .agent =>
    let u := agent_node s.st (env.llm s.st)
    let st2 := applyAgentUpdate s.st u
    ⟨if should_continue st2 = "execution" then .execution else .response,
     st2, s.invocations⟩
  | .execution =>
    match execution_node (execEnvAt env s.st) s.st with
    | .error _ => ⟨.done, s.st, s.invocations⟩
    | .ok eff =>
      let st2 := applyExecEffects s.st eff
      let nxt := need_continue_after_execution st2
      ⟨if nxt = "execution" then .execution
       else if nxt = "agent" then .agent
       else .response,
       st2, s.invocations + eff.invoked.length⟩
  | .response =>
    ⟨.done,
     { s.st with messages := s.st.messages ++ [.ai (response_node s.st) []] },
     s.invocations⟩
  | .done => s

/-- Iterate the step function. -/
def runSys (env : SysEnv) : Nat → Sys → Sys
  | 0, s => s
  | n + 1, s => runSys env n (sysStep env s)

/-- The initial state built by `chat_stream.event_generator` for a new turn
(`initial_state` in `backend/app/api/chat.py`). -/
def initialSys (user_message : String) : Sys :=
  ⟨.agent, ⟨[.human user_message], 0, 0, false, Option.none, []⟩, 0⟩

/-- Content of the last message of a history (what the user ultimately sees). -/
def lastMsgContent (messages : List Msg) : String :=
  match messages.reverse with
  | .ai c _ :: _ => c
  | .human c :: _ => c
  | .system c :: _ => c
  | .tool c _ :: _ => c
  | [] => ""

/-! ## Concrete runs and states used by individual theorems -/

/-- A run environment with no tools and inert resume values. -/
def trivEnv : SysEnv :=
  { llm := fun _ => .ok ⟨"", []⟩,
    findTool := fun _ => Option.none,
    jsonParse := fun _ => Option.none,
    askResume := fun _ => .none,
    confirmResume := fun _ => .none,
    selResume := fun _ => .none }

/-- Scene for C1: in iteration 1 the tool `t` was called with args
`{x: "1"}` (call id `id1`) and completed successfully; in iteration 2 the
reasoner requests the identical `(name, args)` again under the fresh call id
`id2`. -/
def C1st : AgentState :=
  ⟨[.human "hi",
    .ai "" [⟨some "id1", "t", [("x", .str "1")]⟩],
    .tool "ok" (some "id1"),
    .ai "" [⟨some "id2", "t", [("x", .str "1")]⟩]],
   2, 1, false,
   some ⟨"", [⟨"t", [("x", .str "1")]⟩], "", false⟩, []⟩

/-- Registry for C1: the tool `t` exists and succeeds. -/
def C1env : ExecEnv :=
  ⟨fun n => if n = "t" then some (fun _ => .ok (.str "ok2")) else Option.none,
   fun _ => Option.none, .none, .none, .none⟩

/-- Witness state for the amended C1: the single requested action's call id
`d1` already has a `ToolMessage`. -/
def C1wSt : AgentState :=
  ⟨[.ai "" [⟨some "d1", "t", []⟩], .tool "ok" (some "d1")],
   1, 1, false, some ⟨"", [⟨"t", []⟩], "", false⟩, []⟩

/-- Run environment for C2: the LLM answers every reasoning round with one
decision containing 51 distinct tool calls of the existing tool `t`. -/
def C2env : SysEnv :=
  { llm := fun _ =>
      .ok ⟨"go", (List.range 51).map (fun i => ⟨some ("id" ++ toString i), "t", []⟩)⟩,
    findTool := fun n => if n = "t" then some (fun _ => .ok (.str "ok")) else Option.none,
    jsonParse := fun _ => Option.none,
    askResume := fun _ => .none,
    confirmResume := fun _ => .none,
    selResume := fun _ => .none }

/-- Scene for C5 (spec Scenario A): one pending destination-setting action
with a non-empty `poi_name`, confirmation resumed with `"cancel"`. -/
def C5st : AgentState :=
  ⟨[.human "hi",
    .ai "" [⟨some "c1", "com_sgm_navi_hmi_set_destination",
             [("poi_name", .str "Central Park")]⟩]],
   1, 0, false,
   some ⟨"", [⟨"com_sgm_navi_hmi_set_destination",
              [("poi_name", .str "Central Park")]⟩], "", false⟩, []⟩

/-- Environment for C5: the destination tool exists, confirmation resume is
the cancel token. -/
def C5env : ExecEnv :=
  ⟨fun n => if n = "com_sgm_navi_hmi_set_destination" then
      some (fun _ => .ok (.str "ok")) else Option.none,
   fun _ => Option.none, .none, .str "cancel", .none⟩

/-- Environment for C6: the only registered tool `boom` raises. -/
def C6env : ExecEnv :=
  ⟨fun n => if n = "boom" then some (fun _ => .error "ka") else Option.none,
   fun _ => Option.none, .none, .none, .none⟩

/-- State for C6's totality witness: one pending call of the raising tool. -/
def C6st : AgentState :=
  ⟨[.ai "" [⟨some "b1", "boom", []⟩]],
   1, 0, false, some ⟨"", [⟨"boom", []⟩], "", false⟩, []⟩

/-- Run environment for C7: nine reasoning rounds each yield one fresh tool
call; the tenth LLM invocation raises. -/
def C7env : SysEnv :=
  { llm := fun st =>
      if 9 ≤ st.iteration_count then .error "boom"
      else .ok ⟨"", [⟨some ("i" ++ toString st.iteration_count), "t", []⟩]⟩,
    findTool := fun n => if n = "t" then some (fun _ => .ok (.str "ok")) else Option.none,
    jsonParse := fun _ => Option.none,
    askResume := fun _ => .none,
    confirmResume := fun _ => .none,
    selResume := fun _ => .none }

/-- Scene for C9's witness (spec Scenario B): one `query_tickets` action with
an empty `date`, `ask_params` resumed with a date patch. -/
def C9st : AgentState :=
  ⟨[.human "hi", .ai "" [⟨some "q1", "query_tickets", [("date", .str "")]⟩]],
   1, 0, false,
   some ⟨"", [⟨"query_tickets", [("date", .str "")]⟩], "", false⟩, []⟩

/-- Environment for C9's witness: `query_tickets` exists and succeeds; the
`ask_params` resume carries `{params: {date: "2025-05-01"}}`. -/
def C9env : ExecEnv :=
  ⟨fun n => if n = "query_tickets" then some (fun _ => .ok (.str "tickets")) else Option.none,
   fun _ => Option.none,
   .dict [("params", .dict [("date", .str "2025-05-01")])],
   .none, .none⟩

/-! ## Shared lemmas -/

/-- The selection list of `hitl_config.py` is empty, so the post-execution
selection gate never fires for any tool. -/
theorem need_selection_always_false (t : String) : need_selection t = false := rfl

/-- Overwriting key `k'` leaves lookups of a different key `k` unchanged
(map branch of `dictSet`). -/
theorem tableGet_map_set {v' : PyVal} {k' k : String} (h : ¬ k' = k) :
    ∀ d : PyDict,
      tableGet (d.map (fun kv => if kv.1 = k' then (k', v') else kv)) k =
        tableGet d k := by
  intro d
  induction d with
  | nil => rfl
  | cons kv d' ih =>
    simp only [List.map_cons, tableGet]
    by_cases hk : kv.1 = k'
    · have hkk : ¬ kv.1 = k := fun hx => h (hk.symm.trans hx)
      rw [if_pos hk]
      show (if k' = k then some v' else
        tableGet (d'.map (fun kv => if kv.1 = k' then (k', v') else kv)) k) = _
      rw [if_neg h, if_neg hkk]
      exact ih
    · rw [if_neg hk]
      by_cases hkk : kv.1 = k
      · rw [if_pos hkk, if_pos hkk]
      · rw [if_neg hkk, if_neg hkk]
        exact ih

/-- Lookup distributes over append, favouring the left list. -/
theorem tableGet_append {α : Type} (d e : List (String × α)) (k : String) :
    tableGet (d ++ e) k =
      match tableGet d k with
      | some v => some v
      | Option.none => tableGet e k := by
  induction d with
  | nil => rfl
  | cons kv d' ih =>
    by_cases hk : kv.1 = k
    · simp [tableGet, hk]
    · simp [tableGet, hk, ih]

/-- Setting key `k'` leaves lookups of a different key `k` unchanged. -/
theorem tableGet_dictSet_ne {d : PyDict} {k' k : String} {v' : PyVal}
    (h : ¬ k' = k) : tableGet (dictSet d k' v') k = tableGet d k := by
  unfold dictSet
  split
  · exact tableGet_map_set h d
  · rw [tableGet_append]
    cases htg : tableGet d k with
    | some v => rfl
    | none => simp [tableGet, h]

/-- Frame property of `dict.update`: keys not mentioned by the patch keep
their value. -/
theorem dictUpdate_frame :
    ∀ (p d : PyDict) (k : String), (∀ kv ∈ p, ¬ kv.1 = k) →
      tableGet (dictUpdate d p) k = tableGet d k := by
  intro p
  induction p with
  | nil => intro d k _; rfl
  | cons kv p' ih =>
    intro d k h
    have hstep : dictUpdate d (kv :: p') = dictUpdate (dictSet d kv.1 kv.2) p' := rfl
    rw [hstep, ih _ k (fun kv' h' => h kv' (List.mem_cons_of_mem _ h')),
        tableGet_dictSet_ne (h kv (List.mem_cons_self _ _))]

/-- Gate 2 alone either cancels or proceeds with exactly the args it was
given. -/
theorem confirmation_gate_outcome (t : String) (c : PyVal) (m : List String)
    (am : String) (args : PyDict) (r : Bool) :
    (confirmation_gate t c m am args r).1 = .cancelled ∨
      (confirmation_gate t c m am args r).1 = .proceed args := by
  unfold confirmation_gate
  split
  · split <;> simp
  · simp

/-- Gate 2 reports the `ask_raised` flag it was handed. -/
theorem confirmation_gate_ask (t : String) (c : PyVal) (m : List String)
    (am : String) (args : PyDict) (r : Bool) :
    (confirmation_gate t c m am args r).2.ask_raised = r := by
  unfold confirmation_gate
  split
  · split <;> rfl
  · rfl

/-- The HITL gates either cancel or proceed whenever the `ask_params` resume
value is not the ill-typed `params` dict. -/
theorem check_hitl_not_raised {a : PyVal} (h : isBadPatch (askBranch a) = false)
    (t : String) (args : PyDict) (c : PyVal) :
    (check_hitl_requirements t args a c).1 = .cancelled ∨
      ∃ a2, (check_hitl_requirements t args a c).1 = .proceed a2 := by
  unfold check_hitl_requirements
  split
  · rcases confirmation_gate_outcome t c (missingParams t args)
      (askMessageOf t (missingParams t args)) args false with hg | hg
    · exact Or.inl hg
    · exact Or.inr ⟨args, hg⟩
  · cases hb : askBranch a with
    | patch p =>
      rcases confirmation_gate_outcome t c (missingParams t args)
        (askMessageOf t (missingParams t args)) (dictUpdate args p) true with hg | hg
      · exact Or.inl hg
      · exact Or.inr ⟨dictUpdate args p, hg⟩
    | badPatch => rw [hb] at h; exact absurd h (by simp [isBadPatch])
    | cancel => exact Or.inl rfl
    | other =>
      rcases confirmation_gate_outcome t c (missingParams t args)
        (askMessageOf t (missingParams t args)) args true with hg | hg
      · exact Or.inl hg
      · exact Or.inr ⟨args, hg⟩

/-- The `ask_params` interrupt fires exactly when the missing-parameter scan
is non-empty, whatever the resume values. -/
theorem trace_ask_raised (t : String) (args : PyDict) (a c : PyVal) :
    (check_hitl_requirements t args a c).2.ask_raised =
      !(missingParams t args).isEmpty := by
  unfold check_hitl_requirements
  split
  · next hm => rw [confirmation_gate_ask, hm]; rfl
  · next hm =>
    rw [Bool.not_eq_true] at hm
    cases hb : askBranch a with
    | patch p => rw [confirmation_gate_ask, hm]; rfl
    | badPatch => rw [hm]; rfl
    | cancel => rw [hm]; rfl
    | other => rw [confirmation_gate_ask, hm]; rfl

/-- A successful `execLoop` pass never decreases the tool-call counter: the
returned counter (when the key is present) is the old one plus at most one. -/
theorem execLoop_total_mono (env : ExecEnv) (tcs : List ToolCall)
    (ex : List (Option String)) (n : Nat) :
    ∀ (l : List (Nat × Action)) (eff : ExecEffects),
      execLoop env tcs ex n l = .ok eff →
        n ≤ eff.total_tool_calls.getD n := by
  intro l
  induction l with
  | nil =>
    intro eff h
    simp only [execLoop] at h
    cases h
    simp
  | cons p rest ih =>
    intro eff h
    simp only [execLoop] at h
    split at h
    · exact ih eff h
    · split at h
      · cases h
      · cases h
        simp
      · cases h
        simp only [Option.getD_some]
        split <;> omega

/-- A successful `execution_node` pass never decreases the counter. -/
theorem execution_node_total_mono (env : ExecEnv) (st : AgentState)
    (eff : ExecEffects) (h : execution_node env st = .ok eff) :
    st.total_tool_calls ≤ eff.total_tool_calls.getD st.total_tool_calls := by
  unfold execution_node at h
  split at h
  · cases h; simp
  · exact execLoop_total_mono env _ _ _ _ eff h

/-- An `execLoop` pass over actions whose call ids are all already executed
returns the empty update. -/
theorem execLoop_all_skipped (env : ExecEnv) (tcs : List ToolCall)
    (ex : List (Option String)) (n : Nat) :
    ∀ l : List (Nat × Action),
      (∀ p ∈ l, ex.contains (callIdAt tcs p.1) = true) →
        execLoop env tcs ex n l = .ok ⟨[], [], Option.none, []⟩ := by
  intro l
  induction l with
  | nil => intro _; rfl
  | cons p rest ih =>
    intro h
    simp only [execLoop, h p (List.mem_cons_self _ _), if_true]
    exact ih (fun q hq => h q (List.mem_cons_of_mem _ hq))

/-- A successful `execLoop` pass exists whenever the `ask_params` resume value
is well formed. -/
theorem execLoop_ok_exists (env : ExecEnv) (tcs : List ToolCall)
    (ex : List (Option String)) (n : Nat)
    (ha : isBadPatch (askBranch env.askResume) = false) :
    ∀ l : List (Nat × Action), ∃ eff, execLoop env tcs ex n l = .ok eff := by
  intro l
  induction l with
  | nil => exact ⟨_, rfl⟩
  | cons p rest ih =>
    simp only [execLoop]
    split
    · exact ih
    · rcases hck : check_hitl_requirements p.2.name p.2.args
        env.askResume env.confirmResume with ⟨o, tr⟩
      have hnr := check_hitl_not_raised ha p.2.name p.2.args env.confirmResume
      rw [hck] at hnr
      rcases hnr with hc | ⟨a2, hc⟩
      · have ho : o = .cancelled := hc
        subst ho; exact ⟨_, rfl⟩
      · have ho : o = .proceed a2 := hc
        subst ho; exact ⟨_, rfl⟩

/-- The registry invocation recorded by a direct execution is exactly the
`(tool, args)` pair passed in, whenever the tool resolves. -/
theorem execute_invoked (env : ExecEnv) (t : String) (a : PyDict)
    (id : Option String) (f : PyDict → Except String PyVal)
    (hf : env.findTool t = some f) :
    (execute_tool_directly env t a id).2.2 = [(t, a)] := by
  unfold execute_tool_directly
  rw [hf]
  cases hr : f a <;> simp [hr]

/-- An execution pass over a decision holding exactly one action reduces to
the loop body on that action. -/
theorem execution_node_single_step (env : ExecEnv) (st : AgentState)
    (tool : String) (args : PyDict) (d : Decision)
    (hd : st.decision = some d) (ha : d.actions = [⟨tool, args⟩]) :
    execution_node env st =
      execLoop env (lastAiToolCalls st.messages) (executedIds st.messages)
        st.total_tool_calls [(0, ⟨tool, args⟩)] := by
  unfold execution_node
  have hact : (decisionOf st).actions = [⟨tool, args⟩] := by
    simp [decisionOf, hd, ha]
  rw [hact]
  rfl

/-- Characterization of an empty missing-parameter scan. -/
theorem missingParams_eq_nil_iff (tool : String) (args : PyDict) :
    missingParams tool args = [] ↔
      ∀ kv ∈ args, ¬(isEmptyParam kv.2 = true ∧
        optStrTruthy (get_missing_param_prompt tool kv.1) = true) := by
  unfold missingParams
  rw [List.map_eq_nil_iff, List.filter_eq_nil_iff]
  constructor
  · intro h kv hm hc
    exact h kv hm (by rw [hc.1, hc.2]; rfl)
  · intro h kv hm hb
    rcases Bool.and_eq_true_iff.mp hb with ⟨h1, h2⟩
    exact h kv hm ⟨h1, h2⟩

/-! ## Claim C1 -/

/-- C1 (counterexample): the Reasoner's second-iteration decision requests
tool `t` with args identical to the already-successful first-iteration call
(`ToolMessage` with id `id1` in history), but under the fresh call id `id2`.
The claim says the Executor flags it as a duplicate, skips it without
invoking the Tool Registry, and leaves `total_tool_calls` unchanged; the code
instead deduplicates by call id only, so it invokes the registry once and
raises the counter from 1 to 2. -/
theorem C1_cex :
    execution_node C1env C1st =
      .ok ⟨[⟨"t", "success", some "ok2", Option.none⟩],
           [.tool "ok2" (some "id2")], some 2, [("t", [("x", PyVal.str "1")])]⟩
    ∧ C1st.total_tool_calls = 1
    ∧ Msg.tool "ok" (some "id1") ∈ C1st.messages
    ∧ (decisionOf C1st).actions = [⟨"t", [("x", PyVal.str "1")]⟩] := by
  refine ⟨by rfl, rfl, ?_, rfl⟩
  exact List.mem_cons_of_mem _ (List.mem_cons_of_mem _ (List.mem_cons_self _ _))

/-- C1 (amended): duplicate detection is identity-based, not signature-based:
an action is skipped exactly when its `tool_call_id` already carries a
`ToolMessage` in history.  When every requested action's call id is already
executed, the execution node returns the empty update — no registry
invocation, no observation, and the `total_tool_calls` key absent (counter
unchanged) — regardless of tool names and arguments. -/
theorem C1_thm (env : ExecEnv) (st : AgentState)
    (h : ∀ p ∈ (decisionOf st).actions.enum,
      (executedIds st.messages).contains
        (callIdAt (lastAiToolCalls st.messages) p.1) = true) :
    execution_node env st = .ok ⟨[], [], Option.none, []⟩ := by
  unfold execution_node
  split
  · rfl
  · exact execLoop_all_skipped env _ _ _ _ h

/-- C1 (witness): a single-action decision whose call id `d1` already has a
`ToolMessage` is fully skipped. -/
theorem C1_wit : execution_node C1env C1wSt = .ok ⟨[], [], Option.none, []⟩ := by
  apply C1_thm
  intro p hp
  have he : (decisionOf C1wSt).actions.enum = [(0, (⟨"t", []⟩ : Action))] := rfl
  rw [he] at hp
  rw [List.mem_singleton.mp hp]
  rfl

/-! ## Claim C2 -/

/-- C2 (amended): `total_tool_calls` is monotonically non-decreasing across
every node transition, and once it reaches `MAX_TOTAL_TOOL_CALLS` (= 50) the
pre-execution check `should_continue` routes to the response node.  The claim
additionally asserts the counter can never exceed the cap and that no tool is
ever invoked at or above it; that part fails (see `C2_cex`) because the
execution → execution edge re-checks only the iteration cap. -/
theorem C2_thm :
    (∀ (env : SysEnv) (s : Sys),
      s.st.total_tool_calls ≤ (sysStep env s).st.total_tool_calls)
    ∧ (∀ st : AgentState,
        AgentConfig.MAX_TOTAL_TOOL_CALLS ≤ st.total_tool_calls →
          should_continue st = "response")
    ∧ AgentConfig.MAX_TOTAL_TOOL_CALLS = 50 := by
  refine ⟨?_, ?_, rfl⟩
  · intro env s
    cases hn : s.node
    case agent => simp [sysStep, hn, applyAgentUpdate]
    case execution =>
      simp only [sysStep, hn]
      cases hx : execution_node (execEnvAt env s.st) s.st with
      | error e => simp
      | ok eff =>
        simp only [applyExecEffects]
        exact execution_node_total_mono _ _ _ hx
    case response => simp [sysStep, hn]
    case done => simp [sysStep, hn]
  · intro st h
    unfold should_continue
    rw [if_pos h]

/-- C2 (witness): at the cap the pre-execution check denies. -/
theorem C2_wit :
    should_continue ⟨[], 0, 50, false, Option.none, []⟩ = "response" :=
  C2_thm.2.1 ⟨[], 0, 50, false, Option.none, []⟩ (by decide)

set_option maxRecDepth 100000 in
/-- C2 (counterexample): starting a fresh turn, one reasoning round whose
decision holds 51 actions drives the counter to the cap after 50 executions —
with the run still at the execution node — and the next step invokes the
registry once more, pushing `total_tool_calls` to 51 > 50.  This violates both
"never exceeds the cap" and "no tool is ever invoked with the counter at the
cap". -/
theorem C2_cex :
    (runSys C2env 51 (initialSys "hi")).st.total_tool_calls =
      AgentConfig.MAX_TOTAL_TOOL_CALLS
    ∧ (runSys C2env 51 (initialSys "hi")).node = Node.execution
    ∧ (runSys C2env 52 (initialSys "hi")).st.total_tool_calls = 51
    ∧ AgentConfig.MAX_TOTAL_TOOL_CALLS < 51
    ∧ (runSys C2env 52 (initialSys "hi")).invocations =
        (runSys C2env 51 (initialSys "hi")).invocations + 1 :=
  ⟨by rfl, by rfl, by rfl, by decide, by rfl⟩

/-! ## Claim C3 -/

/-- C3 (counterexample): when the iteration cap is reached while the LLM still
requested tool calls, `_build_decision` marks the decision complete but keeps
the non-empty actions list, violating the shape invariant
`is_complete = true → actions = []`. -/
theorem C3_cex :
    (build_decision "x" [⟨some "i", "t", []⟩] 10 []).is_complete = true
    ∧ (build_decision "x" [⟨some "i", "t", []⟩] 10 []).actions ≠ [] :=
  ⟨rfl, fun h => List.cons_ne_nil _ _ h⟩

/-- C3 (amended): every decision `_build_decision` produces is complete
exactly when it has no actions or the iteration has reached
`MAX_ITERATIONS`; the fallback decision synthesized on LLM failure does
satisfy the claimed invariant (complete with empty actions). -/
theorem C3_thm :
    (∀ (content : String) (tcs : List ToolCall) (iteration : Nat)
      (ars : List Obs),
       ((build_decision content tcs iteration ars).is_complete = true ↔
         ((build_decision content tcs iteration ars).actions = [] ∨
           AgentConfig.MAX_ITERATIONS ≤ iteration)))
    ∧ (∀ (st : AgentState) (e : String),
        (agent_node st (.error e)).decision.is_complete = true ∧
          (agent_node st (.error e)).decision.actions = []) := by
  constructor
  · intro content tcs iteration ars
    cases tcs with
    | nil => simp [build_decision]
    | cons tc tcs' => simp [build_decision]
  · intro st e
    exact ⟨rfl, rfl⟩

/-- C3 (witness): a decision with no tool calls is complete. -/
theorem C3_wit : (build_decision "hi" [] 3 []).is_complete = true :=
  (C3_thm.1 "hi" [] 3 []).mpr (Or.inl rfl)

/-! ## Claim C4 -/

/-- C4 (counterexample): with both the iteration cap and the tool-call cap
exceeded at once, the response node reports the iteration cap — the budgets
are checked iteration-cap-first, not in the claimed order (wall-clock, then
tool-call cap, then iteration cap, which would report the tool-call cap
here). -/
theorem C4_cex :
    response_node ⟨[], 10, 50, false, Option.none, []⟩ = max_iterations_message
    ∧ max_iterations_message ≠ max_tool_calls_message :=
  ⟨rfl, by decide⟩

/-- C4 (amended): within the graph, the response node checks the iteration
cap first and the global tool-call cap second (the wall-clock timeout is
enforced separately by the streaming endpoint outside the graph); whichever
limit fires, a fixed termination message naming that limit replaces the
Reasoner's draft response, and with no limit hit the draft-based composition
is used. -/
theorem C4_thm (st : AgentState) :
    (AgentConfig.MAX_ITERATIONS ≤ st.iteration_count →
       response_node st = max_iterations_message)
    ∧ (st.iteration_count < AgentConfig.MAX_ITERATIONS →
       AgentConfig.MAX_TOTAL_TOOL_CALLS ≤ st.total_tool_calls →
         response_node st = max_tool_calls_message)
    ∧ (st.iteration_count < AgentConfig.MAX_ITERATIONS →
       st.total_tool_calls < AgentConfig.MAX_TOTAL_TOOL_CALLS →
         response_node st = compose_response (decisionOf st) st.action_results) := by
  refine ⟨fun h => ?_, fun h1 h2 => ?_, fun h1 h2 => ?_⟩
  · unfold response_node
    rw [if_pos h]
  · unfold response_node
    rw [if_neg (Nat.not_le.mpr h1), if_pos h2]
  · unfold response_node
    rw [if_neg (Nat.not_le.mpr h1), if_neg (Nat.not_le.mpr h2)]

/-- C4 (witness): each cap produces its fixed message. -/
theorem C4_wit :
    response_node ⟨[], 10, 0, false, Option.none, []⟩ = max_iterations_message
    ∧ response_node ⟨[], 0, 50, false, Option.none, []⟩ = max_tool_calls_message :=
  ⟨(C4_thm ⟨[], 10, 0, false, Option.none, []⟩).1 (by decide),
   (C4_thm ⟨[], 0, 50, false, Option.none, []⟩).2.1 (by decide) (by decide)⟩

/-! ## Claim C5 -/

/-- C5: whenever the HITL gates of the pending action cancel — in particular
when an `ask_params` interrupt is resumed with `"cancel"` (second conjunct) or
a confirmation interrupt is resumed with a cancel token (third conjunct) —
the execution node records an observation with status `cancelled`, performs no
registry invocation, and omits the `total_tool_calls` key, so the counter is
unchanged when the update is merged (fourth conjunct). -/
theorem C5_thm :
    (∀ (env : ExecEnv) (st : AgentState) (tool : String) (args : PyDict)
       (d : Decision),
       st.decision = some d → d.actions = [⟨tool, args⟩] →
       (executedIds st.messages).contains
         (callIdAt (lastAiToolCalls st.messages) 0) = false →
       (check_hitl_requirements tool args env.askResume env.confirmResume).1 =
         .cancelled →
       execution_node env st =
         .ok ⟨[⟨tool, "cancelled", Option.none, some "用户取消"⟩],
              [.tool "用户取消了操作" (callIdAt (lastAiToolCalls st.messages) 0)],
              Option.none, []⟩)
    ∧ (∀ (tool : String) (args : PyDict) (confR : PyVal),
        missingParams tool args ≠ [] →
        (check_hitl_requirements tool args (.str "cancel") confR).1 = .cancelled)
    ∧ (∀ (tool : String) (args : PyDict) (askR confR : PyVal),
        need_confirmation tool = true → missingParams tool args = [] →
        isCancelToken confR = true →
        (check_hitl_requirements tool args askR confR).1 = .cancelled)
    ∧ (∀ (st : AgentState) (ars : List Obs) (msgs : List Msg)
        (inv : List (String × PyDict)),
        (applyExecEffects st ⟨ars, msgs, Option.none, inv⟩).total_tool_calls =
          st.total_tool_calls) := by
  refine ⟨?_, ?_, ?_, ?_⟩
  · intro env st tool args d hd ha hex hc
    rw [execution_node_single_step env st tool args d hd ha]
    simp only [execLoop, hex, Bool.false_eq_true, if_false]
    rcases hck : check_hitl_requirements tool args env.askResume
      env.confirmResume with ⟨o, tr⟩
    rw [hck] at hc
    have ho : o = .cancelled := hc
    subst ho
    rfl
  · intro tool args confR h
    unfold check_hitl_requirements
    cases hl : missingParams tool args with
    | nil => exact absurd hl h
    | cons x xs =>
      have hb : askBranch (PyVal.str "cancel") = .cancel := rfl
      simp only [List.isEmpty_cons, Bool.false_eq_true, if_false, hb]
  · intro tool args askR confR hc hm hk
    unfold check_hitl_requirements
    rw [hm]
    simp only [List.isEmpty_nil, if_true, confirmation_gate, hc, hk]
  · intro st ars msgs inv
    rfl

/-- C5 (witness): spec Scenario A — a destination-setting action with
`poi_name` "Central Park" whose confirmation is resumed with `cancel` yields a
`cancelled` observation, no registry invocation and no counter key. -/
theorem C5_wit :
    execution_node C5env C5st =
      .ok ⟨[⟨"com_sgm_navi_hmi_set_destination", "cancelled", Option.none,
             some "用户取消"⟩],
           [.tool "用户取消了操作" (some "c1")], Option.none, []⟩ :=
  C5_thm.1 C5env C5st "com_sgm_navi_hmi_set_destination"
    [("poi_name", PyVal.str "Central Park")]
    ⟨"", [⟨"com_sgm_navi_hmi_set_destination",
          [("poi_name", PyVal.str "Central Park")]⟩], "", false⟩
    rfl rfl rfl (by rfl)

/-! ## Claim C6 -/

/-- C6: an action whose tool name resolves to no registered tool yields an
`error` observation carrying `工具不存在: <name>` without any registry
invocation (first conjunct); an invocation that raises yields an `error`
observation carrying the exception text (second conjunct); and the execution
node returns normally — an `Except.ok` — for every state whenever the
`ask_params` resume value is not the one ill-typed `params` shape, the only
raising path, which is outside tool lookup and tool execution (third
conjunct). -/
theorem C6_thm :
    (∀ (env : ExecEnv) (tool : String) (args : PyDict) (id : Option String),
       env.findTool tool = Option.none →
       execute_tool_directly env tool args id =
         (⟨tool, "error", Option.none, some ("工具不存在: " ++ tool)⟩,
          .tool ("工具不存在: " ++ tool) id, []))
    ∧ (∀ (env : ExecEnv) (tool : String) (args : PyDict) (id : Option String)
        (f : PyDict → Except String PyVal) (e : String),
        env.findTool tool = some f → f args = .error e →
        execute_tool_directly env tool args id =
          (⟨tool, "error", Option.none, some e⟩,
           .tool ("执行失败: " ++ e) id, [(tool, args)]))
    ∧ (∀ (env : ExecEnv) (st : AgentState),
        isBadPatch (askBranch env.askResume) = false →
        ∃ eff, execution_node env st = .ok eff) := by
  refine ⟨?_, ?_, ?_⟩
  · intro env tool args id h
    unfold execute_tool_directly
    rw [h]
  · intro env tool args id f e hf he
    unfold execute_tool_directly
    rw [hf]
    simp only [he]
  · intro env st ha
    unfold execution_node
    split
    · exact ⟨_, rfl⟩
    · exact execLoop_ok_exists env _ _ _ ha _

/-- C6 (witness): a missing tool, a raising tool, and a full execution pass
that returns normally. -/
theorem C6_wit :
    execute_tool_directly C6env "nope" [] (some "x") =
      (⟨"nope", "error", Option.none, some ("工具不存在: " ++ "nope")⟩,
       .tool ("工具不存在: " ++ "nope") (some "x"), [])
    ∧ execute_tool_directly C6env "boom" [] (some "y") =
      (⟨"boom", "error", Option.none, some "ka"⟩,
       .tool ("执行失败: " ++ "ka") (some "y"), [("boom", [])])
    ∧ ∃ eff, execution_node C6env C6st = .ok eff :=
  ⟨C6_thm.1 C6env "nope" [] (some "x") rfl,
   C6_thm.2.1 C6env "boom" [] (some "y") (fun _ => .error "ka") "ka" rfl rfl,
   C6_thm.2.2 C6env C6st rfl⟩

/-! ## Claim C7 -/

/-- C7 (counterexample): a full run in which nine reasoning rounds each
execute one tool and the tenth LLM invocation raises.  The agent node does
return the synthetic apologetic decision, but the turn does **not** end with
that response: the fallback increments `iteration_count` to 10, so the
response node replaces the apologetic text with the fixed
max-iterations termination message. -/
theorem C7_cex :
    (runSys C7env 18 (initialSys "hi")).node = Node.agent
    ∧ (runSys C7env 18 (initialSys "hi")).st.iteration_count = 9
    ∧ C7env.llm (runSys C7env 18 (initialSys "hi")).st = .error "boom"
    ∧ (runSys C7env 20 (initialSys "hi")).node = Node.done
    ∧ lastMsgContent (runSys C7env 20 (initialSys "hi")).st.messages =
        max_iterations_message
    ∧ max_iterations_message ≠ "抱歉，处理请求时出错了" :=
  ⟨by rfl, by rfl, by rfl, by rfl, by rfl, by decide⟩

/-- C7 (amended): on any LLM exception the agent node does not raise: it
returns the synthetic decision (complete, no actions, apologetic response)
and its message, increments the iteration counter, and the conditional edge
routes straight to the response node; the turn then ends with the apologetic
response provided no budget cap has been reached — otherwise the fixed
termination message replaces it (see the counterexample). -/
theorem C7_thm (st : AgentState) (e : String) :
    (agent_node st (.error e)).decision.is_complete = true
    ∧ (agent_node st (.error e)).decision.actions = []
    ∧ (agent_node st (.error e)).decision.response = "抱歉，处理请求时出错了"
    ∧ (agent_node st (.error e)).messages = [.ai "抱歉，处理请求时出错了" []]
    ∧ (agent_node st (.error e)).iteration_count = st.iteration_count + 1
    ∧ should_continue (applyAgentUpdate st (agent_node st (.error e))) = "response"
    ∧ (st.iteration_count + 1 < AgentConfig.MAX_ITERATIONS →
       st.total_tool_calls < AgentConfig.MAX_TOTAL_TOOL_CALLS →
       st.action_results = [] →
       response_node (applyAgentUpdate st (agent_node st (.error e))) =
         "抱歉，处理请求时出错了") := by
  refine ⟨rfl, rfl, rfl, rfl, rfl, ?_, ?_⟩
  · simp only [should_continue, applyAgentUpdate, agent_node, decisionOf]
    split
    · rfl
    · rfl
  · intro h1 h2 h3
    have hi : (applyAgentUpdate st (agent_node st (.error e))).iteration_count =
        st.iteration_count + 1 := rfl
    have ht : (applyAgentUpdate st (agent_node st (.error e))).total_tool_calls =
        st.total_tool_calls := rfl
    have hd : decisionOf (applyAgentUpdate st (agent_node st (.error e))) =
        ⟨"LLM调用失败: " ++ e, [], "抱歉，处理请求时出错了", true⟩ := rfl
    have ha : (applyAgentUpdate st (agent_node st (.error e))).action_results = [] :=
      h3
    unfold response_node
    rw [hi, ht, hd, ha, if_neg (Nat.not_le.mpr h1), if_neg (Nat.not_le.mpr h2)]
    rfl

/-- C7 (witness): with no budget near its cap, the turn ends with the
apologetic response. -/
theorem C7_wit :
    response_node (applyAgentUpdate (initialSys "hi").st
      (agent_node (initialSys "hi").st (.error "x"))) = "抱歉，处理请求时出错了" :=
  (C7_thm (initialSys "hi").st "x").2.2.2.2.2.2 (by decide) (by decide) rfl

/-! ## Claim C8 -/

/-- C8 (counterexample): a reasoner invocation that yields **no** actions
still increments `iteration_count` (from 0 to 1), contradicting the claim
that such an invocation leaves the counter unchanged. -/
theorem C8_cex :
    (agent_node (initialSys "hi").st (.ok ⟨"你好", []⟩)).iteration_count = 1
    ∧ (agent_node (initialSys "hi").st (.ok ⟨"你好", []⟩)).decision.actions = []
    ∧ (initialSys "hi").st.iteration_count = 0 :=
  ⟨rfl, rfl, rfl⟩

/-- C8 (amended): `iteration_count` is incremented exactly once per reasoner
invocation — with or without actions, and also on the LLM-failure path — and
by no other node: the execution and response transitions leave it
unchanged. -/
theorem C8_thm :
    (∀ (st : AgentState) (r : Except String LLMResp),
       (agent_node st r).iteration_count = st.iteration_count + 1)
    ∧ (∀ (st : AgentState) (eff : ExecEffects),
        (applyExecEffects st eff).iteration_count = st.iteration_count)
    ∧ (∀ (env : SysEnv) (s : Sys),
        s.node = Node.execution ∨ s.node = Node.response ∨ s.node = Node.done →
          (sysStep env s).st.iteration_count = s.st.iteration_count) := by
  refine ⟨?_, ?_, ?_⟩
  · intro st r
    cases r <;> rfl
  · intro st eff
    rfl
  · intro env s h
    rcases h with h | h | h
    · simp only [sysStep, h]
      cases hx : execution_node (execEnvAt env s.st) s.st with
      | error e => rfl
      | ok eff => rfl
    · simp only [sysStep, h]
    · simp only [sysStep, h]

/-- C8 (witness): a response transition leaves the counter unchanged. -/
theorem C8_wit :
    (sysStep trivEnv ⟨Node.response, (initialSys "w").st, 0⟩).st.iteration_count =
      (initialSys "w").st.iteration_count :=
  C8_thm.2.2 trivEnv ⟨Node.response, (initialSys "w").st, 0⟩ (Or.inr (Or.inl rfl))

/-! ## Claim C9 -/

/-- C9 (counterexample): resuming the `ask_params` interrupt of a
`query_tickets` call (missing `date`, `from_station` already "北京") with a
patch that also carries `from_station: "上海"` overwrites the non-empty field:
the merge is Python's `dict.update`, not a missing-fields-only merge, so the
claim's frame condition fails. -/
theorem C9_cex :
    (check_hitl_requirements "query_tickets"
      [("from_station", PyVal.str "北京"), ("date", PyVal.str "")]
      (.dict [("params", .dict [("date", PyVal.str "2025-05-01"),
                                ("from_station", PyVal.str "上海")])])
      (PyVal.str "x")).1 =
      .proceed [("from_station", PyVal.str "上海"),
                ("date", PyVal.str "2025-05-01")]
    ∧ tableGet [("from_station", PyVal.str "上海"),
                ("date", PyVal.str "2025-05-01")] "from_station" =
        some (PyVal.str "上海")
    ∧ tableGet [("from_station", PyVal.str "北京"), ("date", PyVal.str "")]
        "from_station" = some (PyVal.str "北京")
    ∧ ("上海" : String) ≠ "北京" :=
  ⟨by rfl, rfl, rfl, by decide⟩

/-- C9 (amended): when the `ask_params` gate fires and is resumed with a
parameter patch, the patch is merged by `dict.update`: every key of the patch
overwrites or extends the args unconditionally, keys absent from the patch
are unchanged (frame, second conjunct), and the tool is invoked with exactly
the merged args (third conjunct). -/
theorem C9_thm :
    (∀ (tool : String) (args patch : PyDict) (confR : PyVal),
       missingParams tool args ≠ [] →
       need_confirmation tool = false →
       (check_hitl_requirements tool args
         (.dict [("params", .dict patch)]) confR).1 =
         .proceed (dictUpdate args patch))
    ∧ (∀ (args patch : PyDict) (k : String),
        (∀ kv ∈ patch, ¬ kv.1 = k) →
          tableGet (dictUpdate args patch) k = tableGet args k)
    ∧ (∀ (env : ExecEnv) (st : AgentState) (tool : String) (args : PyDict)
        (d : Decision) (a2 : PyDict) (f : PyDict → Except String PyVal),
        st.decision = some d → d.actions = [⟨tool, args⟩] →
        (executedIds st.messages).contains
          (callIdAt (lastAiToolCalls st.messages) 0) = false →
        (check_hitl_requirements tool args env.askResume env.confirmResume).1 =
          .proceed a2 →
        env.findTool tool = some f →
        ∃ eff, execution_node env st = .ok eff ∧ eff.invoked = [(tool, a2)]) := by
  refine ⟨?_, ?_, ?_⟩
  · intro tool args patch confR hm hc
    unfold check_hitl_requirements
    cases hl : missingParams tool args with
    | nil => exact absurd hl hm
    | cons x xs =>
      have hb : askBranch (PyVal.dict [("params", PyVal.dict patch)]) =
          .patch patch := rfl
      simp only [List.isEmpty_cons, Bool.false_eq_true, if_false, hb,
        confirmation_gate, hc]
  · intro args patch k h
    exact dictUpdate_frame patch args k h
  · intro env st tool args d a2 f hd ha hex hchk hf
    rw [execution_node_single_step env st tool args d hd ha]
    simp only [execLoop, hex, Bool.false_eq_true, if_false]
    rcases hck : check_hitl_requirements tool args env.askResume
      env.confirmResume with ⟨o, tr⟩
    rw [hck] at hchk
    have ho : o = .proceed a2 := hchk
    subst ho
    exact ⟨_, rfl, execute_invoked env tool a2 _ f hf⟩

/-- C9 (witness): spec Scenario B — `query_tickets` missing its `date`,
resumed with a date patch, invokes the tool with the merged args. -/
theorem C9_wit :
    ∃ eff, execution_node C9env C9st = .ok eff ∧
      eff.invoked = [("query_tickets", [("date", PyVal.str "2025-05-01")])] :=
  C9_thm.2.2 C9env C9st "query_tickets" [("date", PyVal.str "")]
    ⟨"", [⟨"query_tickets", [("date", PyVal.str "")]⟩], "", false⟩
    [("date", PyVal.str "2025-05-01")]
    (fun _ => .ok (.str "tickets"))
    rfl rfl rfl (by rfl) rfl

/-! ## Claim C10 -/

/-- C10: the missing-parameter gate inspects only keys present in the args
map: the `ask_params` interrupt fires exactly when some key of args holds
`None` or an empty/whitespace-only string and has a (non-empty) prompt
registered for `(tool, key)`; in particular a tool with no registered prompts
never triggers the interrupt (second conjunct), and a parameter with a
registered prompt that is absent from args cannot satisfy the existential, so
it never triggers it. -/
theorem C10_thm (tool : String) (args : PyDict) (askR confR : PyVal) :
    ((check_hitl_requirements tool args askR confR).2.ask_raised = true ↔
      ∃ kv ∈ args, isEmptyParam kv.2 = true ∧
        optStrTruthy (get_missing_param_prompt tool kv.1) = true)
    ∧ (tableGet param_prompts tool = Option.none →
       (check_hitl_requirements tool args askR confR).2.ask_raised = false) := by
  have hchar := missingParams_eq_nil_iff tool args
  constructor
  · rw [trace_ask_raised, Bool.not_eq_true', List.isEmpty_eq_false]
    constructor
    · intro hne
      by_contra hno
      exact hne (hchar.mpr (fun kv hm hc => hno ⟨kv, hm, hc⟩))
    · intro hex hnil
      rcases hex with ⟨kv, hm, hc⟩
      exact (hchar.mp hnil) kv hm hc
  · intro hnone
    rw [trace_ask_raised]
    have hnil : missingParams tool args = [] := by
      apply hchar.mpr
      intro kv _ hc
      have hgm : get_missing_param_prompt tool kv.1 = Option.none := by
        unfold get_missing_param_prompt
        rw [hnone]
      rw [hgm] at hc
      exact absurd hc.2 (by decide)
    rw [hnil]
    rfl

/-- C10 (witness): a whitespace-only `city` for `get_weather` raises the
interrupt; a tool with no registered prompts never raises it, even with a
`None`-valued argument. -/
theorem C10_wit :
    (check_hitl_requirements "get_weather" [("city", PyVal.str " ")]
      (.str "z") .none).2.ask_raised = true
    ∧ (check_hitl_requirements "totally_unknown" [("city", PyVal.none)]
      (.str "z") .none).2.ask_raised = false :=
  ⟨(C10_thm "get_weather" [("city", PyVal.str " ")] (.str "z") .none).1.mpr
     ⟨("city", PyVal.str " "), List.mem_singleton.mpr rfl, rfl, rfl⟩,
   (C10_thm "totally_unknown" [("city", PyVal.none)] (.str "z") .none).2 rfl⟩

end NavV2

